import Mathlib

/-!
Verification development for the session identity and storage subsystem of an
OpenID-Connect node SDK (`src/lib/src/session/user-session.ts`).

The `UserSession` class is embedded shallowly: each async method becomes a pure
Lean function from an explicit store state to a result triple (outcome, final
store state, list of store calls issued).  Collaborators that the class imports
but whose code is not part of the analysed sources (`SessionUtils`, the
exception class, the `Store` capability, the JSON serialization) are modelled
from the specification, as marked on each definition.
-/

namespace UserSession

/-- Modelled from the spec: the token bundle (`TokenResponse` from the external
protocol engine) is "an explicit tagged structure with named, typed fields
(subject, access token, refresh token optional, id token, expiry optional)";
the manager only stores and retrieves it opaquely. -/
structure TokenResponse where
  accessToken : String
  idToken : String
  expiresIn : String
  scope : String
  tokenType : String
  refreshToken : Option String
deriving Repr, DecidableEq

/-- Modelled from the spec: serialized "byte-string" form of a session record;
"format otherwise left to the chosen serialization (round-trip requirement
only)".  We serialize to a list of named fields. -/
abbrev SerializedData := List (String × String)

/-- Modelled from the spec: `JSON.stringify(sessionData)` — serialize the token
bundle to a storable representation. -/
def stringifySessionData (d : TokenResponse) : SerializedData :=
  [("access_token", d.accessToken), ("id_token", d.idToken),
   ("expires_in", d.expiresIn), ("scope", d.scope), ("token_type", d.tokenType)]
  ++ (match d.refreshToken with
      | some r => [("refresh_token", r)]
      | none => [])

/-- Modelled from the spec: `JSON.parse(sessionData)` — deserialize a stored
value back into the session record shape; fails (`none`, the raw
deserialization exception) when the stored value does not have that shape. -/
def parseSessionData : SerializedData → Option TokenResponse
  | ("access_token", a) :: ("id_token", i) :: ("expires_in", e) :: ("scope", s)
      :: ("token_type", t) :: rest =>
    match rest with
    | [] => some ⟨a, i, e, s, t, none⟩
    | [("refresh_token", r)] => some ⟨a, i, e, s, t, some r⟩
    | _ => none
  | _ => none

/-- Modelled from the spec: a non-cryptographic stand-in for the one-way hash
inside `SessionUtils.createUUID`; a pure, deterministic function of the
subject string. -/
def hashSubject (s : String) : Nat :=
  s.foldl (fun h c => (h * 31 + c.toNat) % (2 ^ 64)) 5381

/-- Modelled from the spec: `SessionUtils.createUUID(sub)` derives a stable,
opaque, fixed-shape session identifier from the subject claim; it yields a
falsy (empty) result when the subject is empty. -/
def createUUID (sub : String) : String :=
  if sub = "" then "" else "sid-" ++ Nat.repr (hashSubject sub)

/-- Modelled from the spec: `SessionUtils.validateUUID(candidate)` is a pure
structural check of the identifier shape produced by `createUUID`; it never
throws, and malformed or absent input yields `false`. -/
def validateUUID (uuid : String) : Bool :=
  uuid.toList.take 4 == "sid-".toList && decide (4 < uuid.toList.length)

/-- Modelled from the spec: the structured exception raised by this subsystem
(`AsgardeoAuthException` from `../exception`, absent from the analysed
sources); it carries a stable code, the failing operation, a short title and a
detail message, exactly the four strings passed at each construction site in
`user-session.ts`. -/
structure AsgardeoAuthException where
  code : String
  operation : String
  title : String
  detail : String
deriving Repr, DecidableEq

/-- The exception constructed in `createUserSession` when UUID derivation
fails (empty subject). -/
def createUIDException : AsgardeoAuthException :=
  ⟨"NODE_CORE-CUS1-NF01", "createUID()", "Creating UID failed",
   "Could not create a UUID for the session."⟩

/-- The exception constructed in `destroyUserSession` for an empty identifier.
In the source this rejection is built but never returned (the `return` keyword
is missing), so it is dropped. -/
def missingUUIDException : AsgardeoAuthException :=
  ⟨"NODE_CORE-DUS1-NF01", "destroyUserSession()", "User UUID is not found",
   "No user UUID has passed as a parameter "⟩

/-- The exception constructed in `destroyUserSession` when the identifier
fails the shape validation. -/
def invalidUUIDException : AsgardeoAuthException :=
  ⟨"AUTH_CORE-RAT1-NV01", "removeData()", "Destroying session failed",
   "The provided UUID is not valid."⟩

/-- Modelled from the spec: failure signals of the external store capability —
the "not found" signal of `getData`, and the unavailable case for a failing or
timed-out call. -/
inductive StoreFail where
  | notFound
  | unavailable
deriving Repr, DecidableEq

/-- How a `UserSession` promise can reject: with a structured exception the
class constructs itself, with a raw store failure propagated by `await`, or
with a raw deserialization exception thrown by `JSON.parse`. -/
inductive SessionError where
  | authException (e : AsgardeoAuthException)
  | storeFailure (e : StoreFail)
  | parseFailure (raw : SerializedData)
deriving Repr, DecidableEq

/-- `true` exactly when a rejection carries the subsystem's structured
exception kind rather than a raw propagated error. -/
def SessionError.isStructured : SessionError → Bool
  | .authException _ => true
  | .storeFailure _ => false
  | .parseFailure _ => false

/-- A store call issued by the manager, recorded in order of issue. -/
inductive StoreEvent where
  | getData (key : String)
  | setData (key : String) (value : SerializedData)
  | removeData (key : String)
deriving Repr, DecidableEq

/-- Modelled from the spec: the consumed `Store` capability over a state type
`σ` — `setData(key, value)`, `getData(key)` (fails with a not-found signal if
absent), `removeData(key)` (idempotent; absent key is not an error).  A read
does not change the store state. -/
structure StoreImpl (σ : Type) where
  getData : σ → String → Except StoreFail SerializedData
  setData : σ → String → SerializedData → Except StoreFail σ
  removeData : σ → String → Except StoreFail σ

/-- Concrete key/value namespace state: an association list from identifiers
to serialized records. -/
abbrev StoreState := List (String × SerializedData)

/-- Look up the record stored at a key. -/
def storeGet : StoreState → String → Option SerializedData
  | [], _ => none
  | (k, v) :: rest, key => if k = key then some v else storeGet rest key

/-- Write a record at a key, unconditionally replacing any record previously
stored at that key. -/
def storeSet (st : StoreState) (key : String) (v : SerializedData) : StoreState :=
  (key, v) :: st.filter (fun p => p.1 != key)

/-- Remove whatever is stored at a key; removing an absent key is a no-op. -/
def storeRemove (st : StoreState) (key : String) : StoreState :=
  st.filter (fun p => p.1 != key)

/-- Number of records held at a key. -/
def recordCount (st : StoreState) (key : String) : Nat :=
  st.countP (fun p => p.1 == key)

/-- Modelled from the spec: a well-behaved store implementation over
`StoreState` — `getData` fails with the not-found signal exactly when the key
is absent, `setData` overwrites, `removeData` is idempotent and total. -/
def goodStore : StoreImpl StoreState :=
  ⟨fun st key =>
      match storeGet st key with
      | some v => .ok v
      | none => .error .notFound,
   fun st key v => .ok (storeSet st key v),
   fun st key => .ok (storeRemove st key)⟩

/-- A store whose `setData` call always fails (for example the backend is
unreachable); reads and removes behave like `goodStore`. -/
def failingSetStore : StoreImpl StoreState :=
  ⟨goodStore.getData,
   fun _ _ _ => .error .unavailable,
   goodStore.removeData⟩

/-- Outcome of one `UserSession` method call: the settled promise, the store
state afterwards, and the store calls issued, in order. -/
structure OpResult (σ : Type) (α : Type) where
  result : Except SessionError α
  store : σ
  trace : List StoreEvent
deriving Repr

/-- `UserSession.createUserSession(sub, sessionData)` from
`user-session.ts:31-50`: derive the UUID; if it is falsy, reject with
`createUIDException`; otherwise issue `setData` with the serialized bundle and
resolve with the UUID.  The `setData` promise is assigned to an unused
variable and never awaited in the source, so its failure does not reject the
returned promise: the error branch of the store call still resolves with the
UUID (with whatever state the failed call left behind, here unchanged). -/
def createUserSession {σ : Type} (impl : StoreImpl σ) (st : σ) (sub : String)
    (sessionData : TokenResponse) : OpResult σ String :=
  let user_uuid := createUUID sub
  if user_uuid = "" then
    ⟨.error (.authException createUIDException), st, []⟩
  else
    match impl.setData st user_uuid (stringifySessionData sessionData) with
    | .ok st1 =>
      ⟨.ok user_uuid, st1, [StoreEvent.setData user_uuid (stringifySessionData sessionData)]⟩
    | .error _ =>
      ⟨.ok user_uuid, st, [StoreEvent.setData user_uuid (stringifySessionData sessionData)]⟩

/-- `UserSession.getUserSession(uuid)` from `user-session.ts:52-56`: await
`getData` (a rejection propagates as-is), then `JSON.parse` the raw value (a
parse throw propagates as-is).  No wrapping into the structured exception
happens on this path. -/
def getUserSession {σ : Type} (impl : StoreImpl σ) (st : σ) (uuid : String) :
    OpResult σ TokenResponse :=
  match impl.getData st uuid with
  | .error e => ⟨.error (.storeFailure e), st, [StoreEvent.getData uuid]⟩
  | .ok raw =>
    match parseSessionData raw with
    | some d => ⟨.ok d, st, [StoreEvent.getData uuid]⟩
    | none => ⟨.error (.parseFailure raw), st, [StoreEvent.getData uuid]⟩

/-- `UserSession.getUUID(sub)` from `user-session.ts:58-62`: a pure
pass-through to the deriver; no store interaction, always resolves. -/
def getUUID {σ : Type} (_impl : StoreImpl σ) (st : σ) (sub : String) :
    OpResult σ String :=
  ⟨.ok (createUUID sub), st, []⟩

/-- `UserSession.destroyUserSession(uuid)` from `user-session.ts:64-94`.  The
empty-identifier guard in the source constructs a rejected promise carrying
`missingUUIDException` but does not return it (the `return` keyword is
missing), so control falls through to shape validation for every input,
including the empty string.  If the shape validates, `removeData` is awaited
(its failure propagates) and the promise resolves `true`; otherwise it rejects
with `invalidUUIDException` without touching the store. -/
def destroyUserSession {σ : Type} (impl : StoreImpl σ) (st : σ) (uuid : String) :
    OpResult σ Bool :=
  let isValidUUID := validateUUID uuid
  if isValidUUID then
    match impl.removeData st uuid with
    | .ok st1 => ⟨.ok true, st1, [StoreEvent.removeData uuid]⟩
    | .error e => ⟨.error (.storeFailure e), st, [StoreEvent.removeData uuid]⟩
  else
    ⟨.error (.authException invalidUUIDException), st, []⟩

/-- A sample token bundle for concrete evaluations. -/
def sampleBundleA : TokenResponse :=
  ⟨"AT1", "IT1", "3600", "openid", "Bearer", none⟩

/-- A second, distinct sample token bundle. -/
def sampleBundleB : TokenResponse :=
  ⟨"AT2", "IT2", "7200", "openid", "Bearer", some "RT2"⟩

/-- Serialization round-trip: what `createUserSession` serializes,
`getUserSession` deserializes back identically. -/
theorem parseSessionData_stringifySessionData (d : TokenResponse) :
    parseSessionData (stringifySessionData d) = some d := by
  rcases d with ⟨a, i, e, s, t, r⟩
  cases r <;> rfl

/-- Reading a key right after writing it yields the written value. -/
theorem storeGet_storeSet (st : StoreState) (key : String) (v : SerializedData) :
    storeGet (storeSet st key v) key = some v := by
  simp [storeSet, storeGet]

/-- A filtered-out key has no remaining records. -/
theorem recordCount_filter_ne (st : StoreState) (key : String) :
    recordCount (st.filter (fun p => p.1 != key)) key = 0 := by
  unfold recordCount
  rw [List.countP_eq_zero]
  intro a ha
  have h : (a.1 != key) = true := (List.mem_filter.mp ha).2
  simp only [bne_iff_ne, ne_eq] at h
  simp only [beq_iff_eq]
  exact h

/-- After a write, the key holds exactly one record. -/
theorem recordCount_storeSet (st : StoreState) (key : String) (v : SerializedData) :
    recordCount (storeSet st key v) key = 1 := by
  have h := recordCount_filter_ne st key
  unfold recordCount at h ⊢
  unfold storeSet
  rw [List.countP_cons]
  simp [h]

/-- Claim C1: for an empty identifier, `destroyUserSession` in fact falls
through the (unreturned) missing-identifier guard, rejects with the
invalid-session-id exception — whose code differs from the
missing-identifier exception's code — and issues zero store calls, leaving
the store unchanged. -/
theorem destroyUserSession_empty_id {σ : Type} (impl : StoreImpl σ) (st : σ) :
    destroyUserSession impl st "" =
      ⟨.error (.authException invalidUUIDException), st, []⟩ ∧
    invalidUUIDException.code ≠ missingUUIDException.code :=
  ⟨rfl, by decide⟩

/-- Claim C2: for every subject and token bundle, reading back the identifier
returned by a successful `createUserSession`, with no intervening store
mutation, deserializes to a record equal to the bundle that was stored. -/
theorem createUserSession_getUserSession_roundTrip (st : StoreState) (s : String)
    (b : TokenResponse) (id : String)
    (h : (createUserSession goodStore st s b).result = .ok id) :
    (getUserSession goodStore (createUserSession goodStore st s b).store id).result =
      .ok b := by
  by_cases hs : createUUID s = ""
  · simp [createUserSession, hs] at h
  · have hid : id = createUUID s := by
      simp [createUserSession, hs, goodStore] at h
      exact h.symm
    subst hid
    simp [createUserSession, hs, goodStore, getUserSession, storeGet_storeSet,
      parseSessionData_stringifySessionData]

/-- Witness for C2 at subject "user-42" and a concrete bundle. -/
theorem createUserSession_getUserSession_roundTrip_witness :
    (getUserSession goodStore
        (createUserSession goodStore [] "user-42" sampleBundleA).store
        (createUUID "user-42")).result = .ok sampleBundleA :=
  createUserSession_getUserSession_roundTrip [] "user-42" sampleBundleA
    (createUUID "user-42") rfl

/-- Claim C3: for every non-empty identifier rejected by the shape validator,
`destroyUserSession` rejects with the invalid-session-id exception, issues no
store call at all (in particular no remove), and leaves the store unchanged. -/
theorem destroyUserSession_invalid_id {σ : Type} (impl : StoreImpl σ) (st : σ)
    (uuid : String) (_hne : uuid ≠ "") (hval : validateUUID uuid = false) :
    destroyUserSession impl st uuid =
      ⟨.error (.authException invalidUUIDException), st, []⟩ := by
  simp [destroyUserSession, hval]

/-- Witness for C3 at the identifier "not-a-real-id-shape". -/
theorem destroyUserSession_invalid_id_witness :
    destroyUserSession goodStore [] "not-a-real-id-shape" =
      ⟨.error (.authException invalidUUIDException), [], []⟩ :=
  destroyUserSession_invalid_id goodStore [] "not-a-real-id-shape" (by decide)
    (by decide)

/-- Claim C4: for every identifier the validator accepts, `destroyUserSession`
resolves `true` whether or not a record exists, and a second call on the same
identifier also resolves `true` (destroy is idempotent). -/
theorem destroyUserSession_valid_idempotent (st : StoreState) (uuid : String)
    (h : validateUUID uuid = true) :
    (destroyUserSession goodStore st uuid).result = .ok true ∧
    (destroyUserSession goodStore (destroyUserSession goodStore st uuid).store
        uuid).result = .ok true := by
  simp [destroyUserSession, goodStore, h]

/-- Witness for C4 at the valid-shaped identifier "sid-1" on an empty store
(no record exists at it). -/
theorem destroyUserSession_valid_idempotent_witness :
    (destroyUserSession goodStore [] "sid-1").result = .ok true ∧
    (destroyUserSession goodStore (destroyUserSession goodStore [] "sid-1").store
        "sid-1").result = .ok true :=
  destroyUserSession_valid_idempotent [] "sid-1" (by decide)

/-- Claim C5: whenever session-id derivation fails (it yields the empty,
falsy identifier), `createUserSession` rejects with the derivation-failure
exception, issues no store call, and leaves the store unchanged. -/
theorem createUserSession_invalid_subject {σ : Type} (impl : StoreImpl σ) (st : σ)
    (sub : String) (d : TokenResponse) (h : createUUID sub = "") :
    createUserSession impl st sub d =
      ⟨.error (.authException createUIDException), st, []⟩ := by
  simp [createUserSession, h]

/-- Witness for C5 at the empty subject. -/
theorem createUserSession_invalid_subject_witness :
    createUserSession goodStore [] "" sampleBundleA =
      ⟨.error (.authException createUIDException), [], []⟩ :=
  createUserSession_invalid_subject goodStore [] "" sampleBundleA rfl

/-- Counterexample to claim C6 as stated: at the absent identifier "sid-1" on
the empty store, `getUserSession` rejects with the store's raw not-found
failure, which does not carry the structured exception kind. -/
theorem getUserSession_not_found_raw :
    (getUserSession goodStore [] "sid-1").result =
      .error (.storeFailure .notFound) ∧
    SessionError.isStructured (.storeFailure .notFound) = false :=
  ⟨rfl, rfl⟩

/-- Claim C6 as amended: `getUserSession` fails when no record exists at the
identifier, propagating the store's raw not-found signal, and fails when the
stored value cannot be deserialized, propagating the raw deserialization
failure; neither failure is wrapped into the structured exception kind. -/
theorem getUserSession_failure_kinds (st : StoreState) (uuid : String) :
    (storeGet st uuid = none →
      (getUserSession goodStore st uuid).result =
        .error (.storeFailure .notFound)) ∧
    (∀ raw, storeGet st uuid = some raw → parseSessionData raw = none →
      (getUserSession goodStore st uuid).result =
        .error (.parseFailure raw) ∧
      SessionError.isStructured (.parseFailure raw) = false) := by
  constructor
  · intro h
    simp [getUserSession, goodStore, h]
  · intro raw h hp
    simp [getUserSession, goodStore, h, hp, SessionError.isStructured]

/-- Witness for the amended C6: an undeserializable record at "sid-1" makes
the read fail with the raw parse failure. -/
theorem getUserSession_failure_kinds_witness :
    (getUserSession goodStore [("sid-1", [("junk", "junk")])] "sid-1").result =
      .error (.parseFailure [("junk", "junk")]) ∧
    SessionError.isStructured (.parseFailure [("junk", "junk")]) = false :=
  (getUserSession_failure_kinds [("sid-1", [("junk", "junk")])] "sid-1").2
    [("junk", "junk")] rfl rfl

/-- Claim C7: against a store whose `setData` call fails, `createUserSession`
still resolves with the derived session id — the store failure is never
awaited, so it does not reject the returned promise — even though the failing
`setData` call was issued. -/
theorem createUserSession_set_failure_resolves (st : StoreState) (b : TokenResponse) :
    (createUserSession failingSetStore st "user-42" b).result =
      .ok (createUUID "user-42") ∧
    (createUserSession failingSetStore st "user-42" b).trace =
      [StoreEvent.setData (createUUID "user-42") (stringifySessionData b)] :=
  ⟨rfl, rfl⟩

/-- Claim C8: for every non-empty subject, two `getUUID` calls — on different
manager instances, store implementations, and store states — resolve with the
identical identifier, and the call has no store interaction. -/
theorem getUUID_deterministic {σ1 σ2 : Type} (impl1 : StoreImpl σ1)
    (impl2 : StoreImpl σ2) (st1 : σ1) (st2 : σ2) (sub : String) (_h : sub ≠ "") :
    (getUUID impl1 st1 sub).result = (getUUID impl2 st2 sub).result ∧
    (getUUID impl1 st1 sub).trace = [] ∧
    (getUUID impl1 st1 sub).store = st1 :=
  ⟨rfl, rfl, rfl⟩

/-- Witness for C8 at subject "user-42" across two different stores. -/
theorem getUUID_deterministic_witness :
    (getUUID goodStore [] "user-42").result =
      (getUUID failingSetStore [("k", [])] "user-42").result :=
  (getUUID_deterministic goodStore failingSetStore [] [("k", [])] "user-42"
    (by decide)).1

/-- Claim C9: creating a session for subject `s` with bundle `b1` and then
again with bundle `b2` leaves exactly one record for `s`, stored at the
derived identifier and reading back equal to `b2`. -/
theorem createUserSession_overwrites (st : StoreState) (s : String)
    (b1 b2 : TokenResponse) (h : createUUID s ≠ "") :
    (getUserSession goodStore
        (createUserSession goodStore (createUserSession goodStore st s b1).store
          s b2).store
        (createUUID s)).result = .ok b2 ∧
    recordCount
        (createUserSession goodStore (createUserSession goodStore st s b1).store
          s b2).store
        (createUUID s) = 1 := by
  constructor
  · simp [createUserSession, h, goodStore, getUserSession, storeGet_storeSet,
      parseSessionData_stringifySessionData]
  · simp [createUserSession, h, goodStore, recordCount_storeSet]

/-- Witness for C9 at subject "user-42" and two concrete bundles. -/
theorem createUserSession_overwrites_witness :
    (getUserSession goodStore
        (createUserSession goodStore
          (createUserSession goodStore [] "user-42" sampleBundleA).store
          "user-42" sampleBundleB).store
        (createUUID "user-42")).result = .ok sampleBundleB :=
  (createUserSession_overwrites [] "user-42" sampleBundleA sampleBundleB
    (by decide)).1

/-- Claim C10: for every identifier and every store implementation,
`getUserSession` issues exactly one `getData` call and no mutating call, and
the store state afterwards equals the state before, whether the read succeeds
or fails. -/
theorem getUserSession_no_mutation {σ : Type} (impl : StoreImpl σ) (st : σ)
    (uuid : String) :
    (getUserSession impl st uuid).store = st ∧
    (getUserSession impl st uuid).trace = [StoreEvent.getData uuid] := by
  rcases hg : impl.getData st uuid with e | raw
  · simp [getUserSession, hg]
  · rcases hp : parseSessionData raw with _ | d <;> simp [getUserSession, hg, hp]

end UserSession
